import Mathlib

/-!
Shallow embedding of the frame lifecycle and GPU/CPU synchronization core of
the DX12Renderer repository (src/DX12Renderer/source/main.cpp), together with
theorems settling the claims about its specification.

The embedding follows the source: global renderer state becomes the structure
RState, each operation (Signal, WaitForFenceValue, Flush, Render, Resize,
SetFullscreen, ParseCommandLineArguments) becomes a Lean function over that
state, and the externally visible actions an operation performs are returned
as an explicit trace of events.  External inputs (the index reported by
IDXGISwapChain::GetCurrentBackBufferIndex, GPU progress, window rectangles
reported by the OS) are parameters of the operations.
-/

namespace DX12

/-- Number of swap chain back buffers (constexpr uint8_t g_NumFrames = 2). -/
def numFrames : Nat := 2

/-- Modulus of the uint64_t fence counter g_FenceValue. -/
def UINT64_MOD : Nat := 2 ^ 64

/-- Resource states used by the two transition barriers recorded in Render
(D3D12_RESOURCE_STATE_PRESENT and D3D12_RESOURCE_STATE_RENDER_TARGET). -/
inductive BufState where
  | present
  | renderTarget
deriving DecidableEq, Repr

/-- Externally visible actions of Render and Resize, in the order the source
performs them.  Slots are indices into the g_NumFrames-sized arrays. -/
inductive Event where
  | resetAllocator (slot : Fin 2)
  | resetList (slot : Fin 2)
  | barrier (slot : Fin 2) (before after : BufState)
  | clear (slot : Fin 2)
  | close
  | execute
  | present (syncInterval : Nat) (allowTearing : Bool)
  | signal (v : Nat)
  | setWatermark (slot : Fin 2) (v : Nat)
  | queryIndex (i : Fin 2)
  | wait (v : Nat)
  | releaseBackBuffer (slot : Fin 2)
  | resizeBuffers (w h : Nat)
  | updateRTVs
deriving DecidableEq, Repr

/-- Renderer state: the mutable globals of main.cpp that the synchronization
core reads and writes.  completed models the fence's GPU-reported value
(ID3D12Fence::GetCompletedValue); backBufferLive i models whether
g_BackBuffers[i] currently holds a reference to a swap-chain image. -/
structure RState where
  clientWidth : Nat
  clientHeight : Nat
  fenceValue : Nat
  completed : Nat
  frameFenceValues : Fin 2 → Nat
  currentBackBufferIndex : Fin 2
  vsync : Bool
  tearingSupported : Bool
  backBufferLive : Fin 2 → Bool

instance : DecidableEq RState := fun a b =>
  decidable_of_iff
    (a.clientWidth = b.clientWidth ∧ a.clientHeight = b.clientHeight ∧
     a.fenceValue = b.fenceValue ∧ a.completed = b.completed ∧
     a.frameFenceValues = b.frameFenceValues ∧
     a.currentBackBufferIndex = b.currentBackBufferIndex ∧
     a.vsync = b.vsync ∧ a.tearingSupported = b.tearingSupported ∧
     a.backBufferLive = b.backBufferLive)
    (by cases a; cases b; simp)

/-- State of the renderer right after wWinMain's initialization: counters and
watermarks start at zero (CreateFence initializes the fence to 0), vsync is on
by default, and all back-buffer references are held. -/
def initState : RState where
  clientWidth := 1280
  clientHeight := 720
  fenceValue := 0
  completed := 0
  frameFenceValues := fun _ => 0
  currentBackBufferIndex := 0
  vsync := true
  tearingSupported := false
  backBufferLive := fun _ => true

/-- Signal from main.cpp: increments the uint64_t fence counter, enqueues a
GPU-side signal for the new value, and returns that value. -/
def Signal (st : RState) : Nat × RState :=
  let fenceValueForSignal := (st.fenceValue + 1) % UINT64_MOD
  (fenceValueForSignal, { st with fenceValue := fenceValueForSignal })

/-- WaitForFenceValue from main.cpp: when GetCompletedValue is below the
requested value, blocks (SetEventOnCompletion + WaitForSingleObject, with the
default unbounded duration) until the fence reaches it; the post-state records
the completed value the wait observed. -/
def WaitForFenceValue (st : RState) (v : Nat) : RState :=
  if st.completed < v then { st with completed := v } else st

/-- Flush from main.cpp: Signal followed by WaitForFenceValue on the value
just produced, draining the GPU queue. -/
def Flush (st : RState) : Nat × RState :=
  let (fenceValueForSignal, st1) := Signal st
  (fenceValueForSignal, WaitForFenceValue st1 fenceValueForSignal)

/-- Asynchronous GPU progress: between CPU-side steps the GPU may retire work,
raising the completed value up to (never past) the last signalled value. -/
def gpuAdvance (st : RState) (adv : Nat) : RState :=
  { st with completed := min (st.completed + adv) st.fenceValue }

/-- Synchronized present interval (main.cpp line 726):
UINT syncInterval = g_VSync ? 1 : 0. -/
def syncInterval (vsync : Bool) : Nat :=
  if vsync then 1 else 0

/-- Tearing request (main.cpp line 728): DXGI_PRESENT_ALLOW_TEARING is passed
exactly when g_TearingSupported && !g_VSync. -/
def presentAllowTearing (tearingSupported vsync : Bool) : Bool :=
  tearingSupported && !vsync

/-- Render from main.cpp.  newIdx is the index the swap chain reports from
GetCurrentBackBufferIndex after the present; adv is the GPU progress made
during the frame.  Returns the new state and the trace of actions performed,
in source order: reset the current slot's allocator, reset the command list
against it, barrier PRESENT to RENDER_TARGET, clear, barrier back, close,
submit, present, signal and store the watermark for the just-rendered slot,
re-query the current index, wait on the new current slot's watermark. -/
def Render (st : RState) (newIdx : Fin 2) (adv : Nat) : RState × List Event :=
  let idx := st.currentBackBufferIndex
  let sync := syncInterval st.vsync
  let tear := presentAllowTearing st.tearingSupported st.vsync
  let (v, st1) := Signal st
  let st2 := { st1 with frameFenceValues := Function.update st1.frameFenceValues idx v }
  let st3 := { st2 with currentBackBufferIndex := newIdx }
  let st4 := gpuAdvance st3 adv
  let waitVal := st3.frameFenceValues newIdx
  let st5 := WaitForFenceValue st4 waitVal
  (st5,
   [Event.resetAllocator idx, Event.resetList idx,
    Event.barrier idx BufState.present BufState.renderTarget,
    Event.clear idx,
    Event.barrier idx BufState.renderTarget BufState.present,
    Event.close, Event.execute,
    Event.present sync tear,
    Event.signal v, Event.setWatermark idx v,
    Event.queryIndex newIdx, Event.wait waitVal])

/-- Run of consecutive Render calls; each element of ins supplies one call's
external inputs (reported back-buffer index, GPU progress). -/
def renderRun (st : RState) (ins : List (Fin 2 × Nat)) : RState :=
  ins.foldl (fun s p => (Render s p.1 p.2).1) st

/-- Body of the per-slot loop in Resize (main.cpp lines 755-760): release the
slot's back-buffer reference, then overwrite its watermark with the watermark
currently stored for the current slot. -/
def resizeSlotStep (cur : Fin 2)
    (acc : ((Fin 2 → Nat) × (Fin 2 → Bool)) × List Event) (i : Fin 2) :
    ((Fin 2 → Nat) × (Fin 2 → Bool)) × List Event :=
  let wm := acc.1.1
  let live := acc.1.2
  ((Function.update wm i (wm cur), Function.update live i false),
   acc.2 ++ [Event.releaseBackBuffer i, Event.setWatermark i (wm cur)])

/-- Resize from main.cpp.  When the requested size differs from the stored
client size: clamp both dimensions to a minimum of 1, Flush the GPU queue,
release every back-buffer reference while rewriting watermarks, resize the
swap-chain buffers, re-query the current index (newIdx is the value the swap
chain reports), and rebuild the render-target views.  Otherwise do nothing. -/
def Resize (st : RState) (width height : Nat) (newIdx : Fin 2) :
    RState × List Event :=
  if st.clientWidth ≠ width ∨ st.clientHeight ≠ height then
    let cw := max 1 width
    let ch := max 1 height
    let st0 := { st with clientWidth := cw, clientHeight := ch }
    let (v, st1) := Flush st0
    let cur := st.currentBackBufferIndex
    let loopOut := (List.finRange 2).foldl (resizeSlotStep cur)
      ((st1.frameFenceValues, st1.backBufferLive), [])
    let st2 := { st1 with
      frameFenceValues := loopOut.1.1
      backBufferLive := fun _ => true
      currentBackBufferIndex := newIdx }
    (st2,
     [Event.signal v, Event.wait v] ++ loopOut.2 ++
     [Event.resizeBuffers cw ch, Event.queryIndex newIdx, Event.updateRTVs])
  else
    (st, [])

/-- Safety predicate for reusing the current slot's command allocator: the
fence's GPU-reported completed value has reached the watermark last recorded
for the slot about to be reset at the top of Render. -/
def slotReady (st : RState) : Prop :=
  st.frameFenceValues st.currentBackBufferIndex ≤ st.completed

instance (st : RState) : Decidable (slotReady st) := by
  unfold slotReady; infer_instance

/-! Fullscreen toggle (SetFullscreen, main.cpp lines 776-820). -/

/-- Win32 RECT. -/
structure Rect where
  left : Int
  top : Int
  right : Int
  bottom : Int
deriving DecidableEq, Repr

/-- Window-system calls SetFullscreen performs, in source order. -/
inductive WEvent where
  | getWindowRect
  | setWindowStyle (style : Nat)
  | setWindowPos (insertAfter : Int) (x y w h : Int) (flags : Nat)
  | showWindow (cmd : Nat)
deriving DecidableEq, Repr

/-- Window-related globals of main.cpp: g_Fullscreen and the saved
g_WindowRect used to restore the windowed geometry. -/
structure WState where
  fullscreen : Bool
  windowRect : Rect
deriving DecidableEq, Repr

def WS_OVERLAPPEDWINDOW : Nat := 0x00CF0000
def WS_CAPTION : Nat := 0x00C00000
def WS_SYSMENU : Nat := 0x00080000
def WS_THICKFRAME : Nat := 0x00040000
def WS_MINIMIZEBOX : Nat := 0x00020000
def WS_MAXIMIZEBOX : Nat := 0x00010000

/-- Style of the borderless fullscreen window (main.cpp line 787):
WS_OVERLAPPEDWINDOW with caption, menu, frame and min/max boxes masked out,
computed on the 32-bit DWORD style word. -/
def borderlessWindowStyle : Nat :=
  WS_OVERLAPPEDWINDOW &&&
    (0xFFFFFFFF ^^^
      (WS_CAPTION ||| WS_SYSMENU ||| WS_THICKFRAME ||| WS_MINIMIZEBOX ||| WS_MAXIMIZEBOX))

def HWND_TOP : Int := 0
def HWND_NOTOPMOST : Int := -2
def SWP_FRAMECHANGED : Nat := 0x0020
def SWP_NOACTIVATE : Nat := 0x0010
def SW_MAXIMIZE : Nat := 3
def SW_NORMAL : Nat := 1

/-- SetFullscreen from main.cpp.  osWindowRect is the rectangle GetWindowRect
reports for the window; monitorRect is the nearest monitor's bounds from
GetMonitorInfo.  When the requested state equals the stored flag the body is
skipped entirely. -/
def SetFullscreen (st : WState) (fullscreen : Bool)
    (osWindowRect monitorRect : Rect) : WState × List WEvent :=
  if st.fullscreen ≠ fullscreen then
    if fullscreen then
      ({ fullscreen := fullscreen, windowRect := osWindowRect },
       [WEvent.getWindowRect,
        WEvent.setWindowStyle borderlessWindowStyle,
        WEvent.setWindowPos HWND_TOP monitorRect.left monitorRect.top
          (monitorRect.right - monitorRect.left)
          (monitorRect.bottom - monitorRect.top)
          (SWP_FRAMECHANGED ||| SWP_NOACTIVATE),
        WEvent.showWindow SW_MAXIMIZE])
    else
      ({ st with fullscreen := fullscreen },
       [WEvent.setWindowStyle WS_OVERLAPPEDWINDOW,
        WEvent.setWindowPos HWND_NOTOPMOST st.windowRect.left st.windowRect.top
          (st.windowRect.right - st.windowRect.left)
          (st.windowRect.bottom - st.windowRect.top)
          (SWP_FRAMECHANGED ||| SWP_NOACTIVATE),
        WEvent.showWindow SW_NORMAL])
  else
    (st, [])

/-! Command-line parsing (ParseCommandLineArguments, main.cpp lines 149-167). -/

/-- Startup configuration globals with their initializers from main.cpp:
g_ClientWidth = 1280, g_ClientHeight = 720, g_UseWarp = false. -/
structure Config where
  clientWidth : Nat
  clientHeight : Nat
  useWarp : Bool
deriving DecidableEq, Repr

def defaultConfig : Config :=
  { clientWidth := 1280, clientHeight := 720, useWarp := false }

/-- Digit run to its decimal value. -/
def digitsToNat (ds : List Char) : Nat :=
  ds.foldl (fun a c => a * 10 + (c.toNat - Char.toNat '0')) 0

def LONG_MAX : Int := 2 ^ 31 - 1
def LONG_MIN : Int := -(2 ^ 31)

/-- Model of wcstol(s, nullptr, 10) on Windows (long is 32-bit): skip leading
whitespace, read an optional sign and a run of decimal digits, clamp to the
long range; when no digits are found the result is 0. -/
def wcstol10 (s : String) : Int :=
  let cs := s.data.dropWhile fun c => c.isWhitespace
  let signRest : Int × List Char :=
    match cs with
    | '-' :: r => (-1, r)
    | '+' :: r => (1, r)
    | _ => (1, cs)
  let ds := signRest.2.takeWhile fun c => c.isDigit
  let raw : Int := signRest.1 * (digitsToNat ds : Int)
  max LONG_MIN (min LONG_MAX raw)

/-- Conversion of the long wcstol result to the uint32_t globals g_ClientWidth
and g_ClientHeight (C integer conversion, reduction mod 2^32). -/
def longToUInt32 (x : Int) : Nat :=
  (x % (2 ^ 32 : Int)).toNat

/-- Read of argv[i].  Reading at or past argc (which the source does when a
width or height flag is the last argument) is undefined behaviour in C; it is
modelled here as reading an empty token, which wcstol parses to 0. -/
def argD (args : List String) (i : Nat) : String :=
  args.getD i ""

/-- Body of the for loop of ParseCommandLineArguments.  The three ifs are
checked sequentially in one iteration and the width and height branches
advance the index past their value argument (argv[++i]), exactly as in the
source; fuel bounds the iteration count. -/
def parseLoop (args : List String) : Nat → Nat → Config → Config
  | 0, _, cfg => cfg
  | fuel + 1, i, cfg =>
    if i < args.length then
      let a0 := argD args i
      let p1 : Nat × Config :=
        if a0 = "-w" ∨ a0 = "--width" then
          (i + 1, { cfg with clientWidth := longToUInt32 (wcstol10 (argD args (i + 1))) })
        else (i, cfg)
      let a1 := argD args p1.1
      let p2 : Nat × Config :=
        if a1 = "-h" ∨ a1 = "--height" then
          (p1.1 + 1,
           { p1.2 with clientHeight := longToUInt32 (wcstol10 (argD args (p1.1 + 1))) })
        else p1
      let a2 := argD args p2.1
      let cfg3 :=
        if a2 = "-warp" ∨ a2 = "--warp" then { p2.2 with useWarp := true } else p2.2
      parseLoop args fuel (p2.1 + 1) cfg3
    else cfg

/-- ParseCommandLineArguments from main.cpp, applied to the argv list
(argv[0] is the program name) starting from the globals' initial values. -/
def ParseCommandLineArguments (args : List String) : Config :=
  parseLoop args (args.length + 1) 0 defaultConfig

/-- Adapter choice in GetAdapter (main.cpp lines 241-275): the warp adapter
is enumerated when useWarp is set, otherwise hardware adapters are enumerated
and the one with the most dedicated video memory is selected. -/
inductive AdapterKind where
  | warp
  | hardware
deriving DecidableEq, Repr

/-- Branch structure of GetAdapter on its useWarp argument. -/
def GetAdapter (useWarp : Bool) : AdapterKind :=
  if useWarp then AdapterKind.warp else AdapterKind.hardware

/-- Renderer state with vsync toggled off while tearing is unsupported, as in
test scenario C of the specification. -/
def noVsyncNoTearingState : RState :=
  { initState with vsync := false, tearingSupported := false }

/-- Renderer state mid-run with distinct per-slot watermarks, slot 1 current. -/
def midRunState : RState :=
  { initState with
    frameFenceValues := fun i => if i = 0 then 5 else 9
    currentBackBufferIndex := 1
    fenceValue := 9
    completed := 9 }

/-! Helper lemmas shared by the claim theorems. -/

theorem update_apply_of_update_val (wm : Fin 2 → Nat) (i cur : Fin 2) :
    Function.update wm i (wm cur) cur = wm cur := by
  rcases eq_or_ne cur i with h | h
  · subst h; simp
  · simp [Function.update, h]

theorem render_fst_slotReady (st : RState) (newIdx : Fin 2) (adv : Nat) :
    slotReady (Render st newIdx adv).1 := by
  simp only [Render, Signal, gpuAdvance, WaitForFenceValue, slotReady]
  split
  · simp
  · simp only [le_min_iff]
    omega

theorem renderRun_cons (st : RState) (p : Fin 2 × Nat) (l : List (Fin 2 × Nat)) :
    renderRun st (p :: l) = renderRun (Render st p.1 p.2).1 l := rfl

theorem render_fst_fenceValue (st : RState) (newIdx : Fin 2) (adv : Nat) :
    (Render st newIdx adv).1.fenceValue = (st.fenceValue + 1) % UINT64_MOD := by
  simp only [Render, Signal, gpuAdvance, WaitForFenceValue]
  split <;> rfl

theorem render_fst_watermark (st : RState) (newIdx : Fin 2) (adv : Nat) :
    (Render st newIdx adv).1.frameFenceValues st.currentBackBufferIndex
      = (st.fenceValue + 1) % UINT64_MOD := by
  simp only [Render, Signal, gpuAdvance, WaitForFenceValue]
  split <;> simp

theorem renderRun_take_fenceValue (ins : List (Fin 2 × Nat)) :
    ∀ (st : RState) (k : Nat), k ≤ ins.length → st.fenceValue + k < UINT64_MOD →
      (renderRun st (ins.take k)).fenceValue = st.fenceValue + k := by
  induction ins with
  | nil =>
    intro st k hk _
    have : k = 0 := Nat.le_zero.mp hk
    subst this
    simp [renderRun]
  | cons p rest ih =>
    intro st k hk hlt
    cases k with
    | zero => simp [renderRun]
    | succ k =>
      rw [List.take_succ_cons, renderRun_cons]
      have h1 : (Render st p.1 p.2).1.fenceValue = st.fenceValue + 1 := by
        rw [render_fst_fenceValue]
        exact Nat.mod_eq_of_lt (by omega)
      rw [ih _ k (by simpa using hk) (by omega), h1]
      omega

/-! Claim theorems. -/

/-- C1: in every render cycle, the current slot's command allocator is reset
only when the fence's GPU-reported completed value has reached the watermark
last recorded for that slot.  Part one: every Render call ends, via the
trailing WaitForFenceValue on the newly current slot's watermark, in a state
where the next reset's precondition (slotReady) holds.  Part two: along any
run of consecutive Render calls starting from a state satisfying slotReady
(such as the initial state), the state at the top of every Render call — the
point where the allocator reset happens — satisfies slotReady. -/
theorem render_no_reset_before_completion :
    (∀ (st : RState) (newIdx : Fin 2) (adv : Nat),
       slotReady (Render st newIdx adv).1) ∧
    (∀ (st : RState) (ins : List (Fin 2 × Nat)), slotReady st →
       ∀ k, k ≤ ins.length → slotReady (renderRun st (ins.take k))) := by
  refine ⟨render_fst_slotReady, ?_⟩
  intro st ins h k hk
  induction ins generalizing st k with
  | nil =>
    have : k = 0 := Nat.le_zero.mp hk
    subst this
    simpa [renderRun] using h
  | cons p rest ih =>
    cases k with
    | zero => simpa [renderRun] using h
    | succ k =>
      rw [List.take_succ_cons, renderRun_cons]
      exact ih _ (render_fst_slotReady st p.1 p.2) k (by simpa using hk)

/-- Witness for C1: from the initial state, a two-cycle render run satisfies
slotReady at every allocator reset point. -/
theorem render_no_reset_before_completion_witness :
    slotReady initState ∧
    slotReady (renderRun initState (List.take 2 [((1 : Fin 2), 0), ((0 : Fin 2), 0)])) :=
  ⟨by decide,
   render_no_reset_before_completion.2 initState [((1 : Fin 2), 0), ((0 : Fin 2), 0)]
     (by decide) 2 (by decide)⟩

/-- C3: every invocation of Render performs exactly the claimed sequence in
order — allocator reset, command-list reset against it, PRESENT to
RENDER_TARGET barrier, clear, RENDER_TARGET to PRESENT barrier, close, submit,
present, fence signal stored as the current slot's watermark, re-query of the
current back-buffer index from the swap chain (the theorem holds for every
reported index newIdx, so the index is never computed by local increment), and
a final wait on the new current slot's recorded watermark. -/
theorem render_step_sequence (st : RState) (newIdx : Fin 2) (adv : Nat) :
    (Render st newIdx adv).2 =
      [Event.resetAllocator st.currentBackBufferIndex,
       Event.resetList st.currentBackBufferIndex,
       Event.barrier st.currentBackBufferIndex BufState.present BufState.renderTarget,
       Event.clear st.currentBackBufferIndex,
       Event.barrier st.currentBackBufferIndex BufState.renderTarget BufState.present,
       Event.close, Event.execute,
       Event.present (syncInterval st.vsync)
         (presentAllowTearing st.tearingSupported st.vsync),
       Event.signal ((st.fenceValue + 1) % UINT64_MOD),
       Event.setWatermark st.currentBackBufferIndex ((st.fenceValue + 1) % UINT64_MOD),
       Event.queryIndex newIdx,
       Event.wait (Function.update st.frameFenceValues st.currentBackBufferIndex
         ((st.fenceValue + 1) % UINT64_MOD) newIdx)] ∧
    (Render st newIdx adv).1.currentBackBufferIndex = newIdx :=
  ⟨rfl, by simp only [Render, Signal, gpuAdvance, WaitForFenceValue]; split <;> rfl⟩

/-- C5: a size-changing Resize stores max(1, width) and max(1, height) as the
client dimensions, so a 0x0 request yields a 1x1 back-buffer set. -/
theorem resize_clamps_dimensions (st : RState) (w h : Nat) (newIdx : Fin 2)
    (hne : st.clientWidth ≠ w ∨ st.clientHeight ≠ h) :
    (Resize st w h newIdx).1.clientWidth = max 1 w ∧
    (Resize st w h newIdx).1.clientHeight = max 1 h := by
  simp only [Resize, if_pos hne, Flush, Signal, WaitForFenceValue]
  constructor <;> (split <;> rfl)

/-- Witness for C5: resizing the initial 1280x720 state to 0x0 clamps the
stored dimensions to 1x1. -/
theorem resize_clamps_dimensions_witness :
    (initState.clientWidth ≠ 0 ∨ initState.clientHeight ≠ 0) ∧
    ((Resize initState 0 0 0).1.clientWidth = max 1 0 ∧
     (Resize initState 0 0 0).1.clientHeight = max 1 0) :=
  ⟨by decide, resize_clamps_dimensions initState 0 0 0 (by decide)⟩

/-- C7: a Resize whose requested size equals the stored client size is a
complete no-op — the state is returned unchanged and no action (no flush, no
release, no buffer recreation) is performed. -/
theorem resize_same_size_noop (st : RState) (w h : Nat) (newIdx : Fin 2)
    (hw : st.clientWidth = w) (hh : st.clientHeight = h) :
    Resize st w h newIdx = (st, []) := by
  subst hw hh
  simp [Resize]

/-- Witness for C7: resizing the initial state to its own 1280x720 size
changes nothing and performs no action. -/
theorem resize_same_size_noop_witness :
    initState.clientWidth = 1280 ∧ initState.clientHeight = 720 ∧
    Resize initState 1280 720 0 = (initState, []) :=
  ⟨rfl, rfl, resize_same_size_noop initState 1280 720 0 rfl rfl⟩

/-- C8: a SetFullscreen call with the currently stored fullscreen flag
performs no window-geometry mutation and leaves all state unchanged. -/
theorem setFullscreen_same_state_noop (st : WState) (f : Bool)
    (osRect monitorRect : Rect) (h : f = st.fullscreen) :
    SetFullscreen st f osRect monitorRect = (st, []) := by
  simp [SetFullscreen, h]

/-- Witness for C8: requesting the already-current windowed state is a no-op. -/
theorem setFullscreen_same_state_noop_witness :
    false = WState.fullscreen ⟨false, ⟨0, 0, 1280, 720⟩⟩ ∧
    SetFullscreen ⟨false, ⟨0, 0, 1280, 720⟩⟩ false ⟨1, 1, 2, 2⟩ ⟨0, 0, 1920, 1080⟩
      = (⟨false, ⟨0, 0, 1280, 720⟩⟩, []) :=
  ⟨rfl, setFullscreen_same_state_noop ⟨false, ⟨0, 0, 1280, 720⟩⟩ false
    ⟨1, 1, 2, 2⟩ ⟨0, 0, 1920, 1080⟩ rfl⟩

/-- C2 counterexample: with vsync off and tearing unsupported, Render issues
the present with synchronized interval 0, not 1 as the claim states (the
source computes syncInterval = g_VSync ? 1 : 0 independently of tearing
support).  The eighth trace entry is the present call. -/
theorem present_interval_counterexample :
    (Render noVsyncNoTearingState 1 0).2.get? 7 = some (Event.present 0 false) ∧
    Event.present 0 false ≠ Event.present 1 false := by
  decide

/-- C2 as amended: the present is issued with synchronized interval 1 exactly
when vsync is on and interval 0 when vsync is off (regardless of tearing
support), and tearing is requested exactly when vsync is off and the display
reports tearing support. -/
theorem present_interval_amended (st : RState) (newIdx : Fin 2) (adv : Nat) :
    (Render st newIdx adv).2.get? 7 =
      some (Event.present (syncInterval st.vsync)
        (presentAllowTearing st.tearingSupported st.vsync)) ∧
    (∀ v : Bool, syncInterval v = 1 ↔ v = true) ∧
    (∀ t v : Bool, presentAllowTearing t v = true ↔ t = true ∧ v = false) :=
  ⟨rfl, by decide, by decide⟩

/-- C4: in every size-changing Resize the trace is exactly — fence signal,
then the wait completing the drain, then the release of each of the two
back-buffer references (with the watermark rewrite the loop interleaves),
then the swap-chain resize at the clamped size, then the re-query of the
current index, then the render-target-view rebuild; moreover the post-state's
completed value confirms the drain reached the flush's fence value before the
releases ran. -/
theorem resize_drain_release_order (st : RState) (w h : Nat) (newIdx : Fin 2)
    (hne : st.clientWidth ≠ w ∨ st.clientHeight ≠ h) :
    (Resize st w h newIdx).2 =
      [Event.signal ((st.fenceValue + 1) % UINT64_MOD),
       Event.wait ((st.fenceValue + 1) % UINT64_MOD),
       Event.releaseBackBuffer 0,
       Event.setWatermark 0 (st.frameFenceValues st.currentBackBufferIndex),
       Event.releaseBackBuffer 1,
       Event.setWatermark 1 (st.frameFenceValues st.currentBackBufferIndex),
       Event.resizeBuffers (max 1 w) (max 1 h),
       Event.queryIndex newIdx,
       Event.updateRTVs] ∧
    (st.fenceValue + 1) % UINT64_MOD ≤ (Resize st w h newIdx).1.completed := by
  simp only [Resize, if_pos hne, Flush, Signal, WaitForFenceValue, resizeSlotStep,
    List.finRange, List.foldl]
  constructor
  · split <;> simp [update_apply_of_update_val]
  · split
    · simp
    · simp
      omega

/-- Witness for C4: the ordered drain-release-reform trace of a concrete
size-changing resize from the mid-run state. -/
theorem resize_drain_release_order_witness :
    (midRunState.clientWidth ≠ 640 ∨ midRunState.clientHeight ≠ 480) ∧
    ((Resize midRunState 640 480 0).2 =
      [Event.signal ((midRunState.fenceValue + 1) % UINT64_MOD),
       Event.wait ((midRunState.fenceValue + 1) % UINT64_MOD),
       Event.releaseBackBuffer 0,
       Event.setWatermark 0 (midRunState.frameFenceValues midRunState.currentBackBufferIndex),
       Event.releaseBackBuffer 1,
       Event.setWatermark 1 (midRunState.frameFenceValues midRunState.currentBackBufferIndex),
       Event.resizeBuffers (max 1 640) (max 1 480),
       Event.queryIndex 0,
       Event.updateRTVs] ∧
     (midRunState.fenceValue + 1) % UINT64_MOD ≤ (Resize midRunState 640 480 0).1.completed) :=
  ⟨by decide, resize_drain_release_order midRunState 640 480 0 (by decide)⟩

/-- C10: after a size-changing Resize every slot's watermark equals the
watermark of the slot that was current when the resize began, so no slot
retains a stale watermark for work recorded against the destroyed buffers. -/
theorem resize_equalizes_watermarks (st : RState) (w h : Nat) (newIdx : Fin 2)
    (hne : st.clientWidth ≠ w ∨ st.clientHeight ≠ h) (i : Fin 2) :
    (Resize st w h newIdx).1.frameFenceValues i
      = st.frameFenceValues st.currentBackBufferIndex := by
  simp only [Resize, if_pos hne, Flush, Signal, WaitForFenceValue, resizeSlotStep,
    List.finRange, List.foldl]
  fin_cases i <;> (split <;> simp [Function.update, update_apply_of_update_val])

/-- Witness for C10: after resizing the mid-run state (watermarks 5 and 9,
slot 1 current), both slots hold watermark 9. -/
theorem resize_equalizes_watermarks_witness :
    (midRunState.clientWidth ≠ 640 ∨ midRunState.clientHeight ≠ 480) ∧
    (Resize midRunState 640 480 0).1.frameFenceValues 0
      = midRunState.frameFenceValues midRunState.currentBackBufferIndex ∧
    (Resize midRunState 640 480 0).1.frameFenceValues 1
      = midRunState.frameFenceValues midRunState.currentBackBufferIndex :=
  ⟨by decide,
   resize_equalizes_watermarks midRunState 640 480 0 (by decide) 0,
   resize_equalizes_watermarks midRunState 640 480 0 (by decide) 1⟩

/-- C6: Signal increments the 64-bit CPU-side fence counter by exactly one
and returns the incremented value (stated below the counter's wrap point,
which a once-per-frame counter never reaches); consequently, over any run of
consecutive render cycles from the initial state with no resize, the fence
counter after k cycles is exactly k — it never decreases — and the watermark
recorded in cycle k+1 is k+1, so recorded watermarks strictly increase by 1
per cycle. -/
theorem signal_strictly_increments :
    (∀ st : RState, st.fenceValue + 1 < UINT64_MOD →
       (Signal st).1 = st.fenceValue + 1 ∧ (Signal st).2.fenceValue = st.fenceValue + 1) ∧
    (∀ ins : List (Fin 2 × Nat), ins.length < UINT64_MOD →
       ∀ k, k ≤ ins.length → (renderRun initState (ins.take k)).fenceValue = k) ∧
    (∀ ins : List (Fin 2 × Nat), ins.length < UINT64_MOD →
       ∀ k, k + 1 ≤ ins.length →
         (renderRun initState (ins.take (k + 1))).frameFenceValues
           (renderRun initState (ins.take k)).currentBackBufferIndex = k + 1) := by
  have hrun : ∀ ins : List (Fin 2 × Nat), ins.length < UINT64_MOD →
      ∀ k, k ≤ ins.length → (renderRun initState (ins.take k)).fenceValue = k := by
    intro ins hlen k hk
    have := renderRun_take_fenceValue ins initState k hk (by simp [initState]; omega)
    simpa [initState] using this
  refine ⟨?_, hrun, ?_⟩
  · intro st hlt
    constructor
    · simpa [Signal] using Nat.mod_eq_of_lt hlt
    · simpa [Signal] using Nat.mod_eq_of_lt hlt
  · intro ins hlen k hk1
    have hk : k < ins.length := hk1
    rw [List.take_succ, List.getElem?_eq_getElem hk]
    simp only [Option.toList_some, renderRun, List.foldl_append, List.foldl_cons,
      List.foldl_nil]
    have hpre : (renderRun initState (ins.take k)).fenceValue = k :=
      hrun ins hlen k (Nat.le_of_lt hk)
    have hw := render_fst_watermark (renderRun initState (ins.take k))
      (ins[k]).1 (ins[k]).2
    simp only [renderRun] at hw hpre
    rw [hw, hpre, Nat.mod_eq_of_lt (by omega)]

/-- Witness for C6: a single Signal from the initial state returns 1, and a
five-cycle render run from the initial state takes the fence counter to 5
while cycle 3 records watermark 3. -/
theorem signal_strictly_increments_witness :
    (initState.fenceValue + 1 < UINT64_MOD ∧
     (Signal initState).1 = initState.fenceValue + 1 ∧
     (Signal initState).2.fenceValue = initState.fenceValue + 1) ∧
    (([((1 : Fin 2), 0), (0, 0), (1, 0), (0, 0), (1, 0)] : List (Fin 2 × Nat)).length
       < UINT64_MOD ∧
     (renderRun initState
       (([((1 : Fin 2), 0), (0, 0), (1, 0), (0, 0), (1, 0)] : List (Fin 2 × Nat)).take 5)).fenceValue
       = 5) ∧
    (renderRun initState
       (([((1 : Fin 2), 0), (0, 0), (1, 0), (0, 0), (1, 0)] : List (Fin 2 × Nat)).take 3)).frameFenceValues
      (renderRun initState
       (([((1 : Fin 2), 0), (0, 0), (1, 0), (0, 0), (1, 0)] : List (Fin 2 × Nat)).take 2)).currentBackBufferIndex
      = 3 :=
  ⟨⟨by decide, signal_strictly_increments.1 initState (by decide)⟩,
   ⟨by decide, signal_strictly_increments.2.1 [(1, 0), (0, 0), (1, 0), (0, 0), (1, 0)]
      (by decide) 5 (by decide)⟩,
   signal_strictly_increments.2.2 [(1, 0), (0, 0), (1, 0), (0, 0), (1, 0)]
      (by decide) 2 (by decide)⟩

/-! Helper lemmas for the command-line parser. -/

theorem argD_mem_or_empty (args : List String) (i : Nat) :
    argD args i ∈ args ∨ argD args i = "" := by
  unfold argD List.getD
  cases h : args.get? i with
  | none => simp
  | some a => simp [List.get?_mem h]

theorem parseLoop_useWarp (args : List String)
    (hargs : ∀ a ∈ args, a ≠ "-warp" ∧ a ≠ "--warp") :
    ∀ (fuel i : Nat) (cfg : Config),
      (parseLoop args fuel i cfg).useWarp = cfg.useWarp := by
  have hW : ∀ j, ¬(argD args j = "-warp" ∨ argD args j = "--warp") := by
    intro j hj
    rcases argD_mem_or_empty args j with hm | he
    · rcases hj with h | h
      · exact (hargs _ hm).1 h
      · exact (hargs _ hm).2 h
    · rw [he] at hj
      rcases hj with h | h <;> simp at h
  intro fuel
  induction fuel with
  | zero => intro i cfg; rfl
  | succ fuel ih =>
    intro i cfg
    simp only [parseLoop]
    split
    · rw [if_neg (hW _)]
      rw [ih]
      split <;> split <;> rfl
    · rfl

theorem parseLoop_done (args : List String) (fuel i : Nat) (cfg : Config)
    (hi : ¬ i < args.length) :
    parseLoop args (fuel + 1) i cfg = cfg := by
  rw [parseLoop, if_neg hi]

theorem parseLoop_step_nomatch (args : List String) (fuel i : Nat) (cfg : Config)
    (hi : i < args.length)
    (hw : ¬(argD args i = "-w" ∨ argD args i = "--width"))
    (hh : ¬(argD args i = "-h" ∨ argD args i = "--height"))
    (hwarp : ¬(argD args i = "-warp" ∨ argD args i = "--warp")) :
    parseLoop args (fuel + 1) i cfg = parseLoop args fuel (i + 1) cfg := by
  rw [parseLoop, if_pos hi]
  dsimp only
  rw [if_neg hw]
  dsimp only
  rw [if_neg hh]
  dsimp only
  rw [if_neg hwarp]

theorem parseLoop_step_width (args : List String) (fuel i : Nat) (cfg : Config)
    (hi : i < args.length)
    (hw : argD args i = "-w" ∨ argD args i = "--width")
    (hh : ¬(argD args (i + 1) = "-h" ∨ argD args (i + 1) = "--height"))
    (hwarp : ¬(argD args (i + 1) = "-warp" ∨ argD args (i + 1) = "--warp")) :
    parseLoop args (fuel + 1) i cfg =
      parseLoop args fuel (i + 2)
        { cfg with clientWidth := longToUInt32 (wcstol10 (argD args (i + 1))) } := by
  rw [parseLoop, if_pos hi]
  dsimp only
  rw [if_pos hw]
  dsimp only
  rw [if_neg hh]
  dsimp only
  rw [if_neg hwarp]

theorem parseLoop_step_height (args : List String) (fuel i : Nat) (cfg : Config)
    (hi : i < args.length)
    (hw : ¬(argD args i = "-w" ∨ argD args i = "--width"))
    (hh : argD args i = "-h" ∨ argD args i = "--height")
    (hwarp : ¬(argD args (i + 1) = "-warp" ∨ argD args (i + 1) = "--warp")) :
    parseLoop args (fuel + 1) i cfg =
      parseLoop args fuel (i + 2)
        { cfg with clientHeight := longToUInt32 (wcstol10 (argD args (i + 1))) } := by
  rw [parseLoop, if_pos hi]
  dsimp only
  rw [if_neg hw]
  dsimp only
  rw [if_pos hh]
  dsimp only
  rw [if_neg hwarp]

theorem parse_width_value (s : String)
    (h1a : s ≠ "-h") (h1b : s ≠ "--height")
    (h2a : s ≠ "-warp") (h2b : s ≠ "--warp") :
    (ParseCommandLineArguments ["prog", "-w", s]).clientWidth
      = longToUInt32 (wcstol10 s) := by
  have hs0 : argD ["prog", "-w", s] 0 = "prog" := rfl
  have hs1 : argD ["prog", "-w", s] (0 + 1) = "-w" := rfl
  have hs2 : argD ["prog", "-w", s] (0 + 1 + 1) = s := rfl
  rw [ParseCommandLineArguments]
  rw [show List.length ["prog", "-w", s] + 1 = 3 + 1 by simp]
  rw [parseLoop_step_nomatch ["prog", "-w", s] 3 0 defaultConfig (by simp)
    (by rw [hs0]; decide) (by rw [hs0]; decide) (by rw [hs0]; decide)]
  rw [parseLoop_step_width ["prog", "-w", s] 2 (0 + 1) defaultConfig (by simp)
    (Or.inl hs1) (by rw [hs2]; tauto) (by rw [hs2]; tauto)]
  rw [parseLoop_done ["prog", "-w", s] 1 (0 + 1 + 2) _ (by simp)]
  simp [hs2]

theorem parse_height_value (s : String)
    (h2a : s ≠ "-warp") (h2b : s ≠ "--warp") :
    (ParseCommandLineArguments ["prog", "-h", s]).clientHeight
      = longToUInt32 (wcstol10 s) := by
  have hs0 : argD ["prog", "-h", s] 0 = "prog" := rfl
  have hs1 : argD ["prog", "-h", s] (0 + 1) = "-h" := rfl
  have hs2 : argD ["prog", "-h", s] (0 + 1 + 1) = s := rfl
  rw [ParseCommandLineArguments]
  rw [show List.length ["prog", "-h", s] + 1 = 3 + 1 by simp]
  rw [parseLoop_step_nomatch ["prog", "-h", s] 3 0 defaultConfig (by simp)
    (by rw [hs0]; decide) (by rw [hs0]; decide) (by rw [hs0]; decide)]
  rw [parseLoop_step_height ["prog", "-h", s] 2 (0 + 1) defaultConfig (by simp)
    (by rw [hs1]; decide) (Or.inl hs1) (by rw [hs2]; tauto)]
  rw [parseLoop_done ["prog", "-h", s] 1 (0 + 1 + 2) _ (by simp)]
  simp [hs2]

theorem takeWhile_isDigit_nil (l : List Char) (h : ∀ c ∈ l, c.isDigit = false) :
    l.takeWhile (fun c => c.isDigit) = [] := by
  cases l with
  | nil => rfl
  | cons a t => simp [List.takeWhile_cons, h a (by simp)]

theorem wcstol10_no_digits (s : String) (h : ∀ c ∈ s.data, c.isDigit = false) :
    wcstol10 s = 0 := by
  have hsub : ∀ c ∈ (s.data.dropWhile fun c => c.isWhitespace), c.isDigit = false := by
    intro c hc
    exact h c ((List.dropWhile_sublist _).subset hc)
  rw [wcstol10]
  split
  next r heq =>
    have hr : ∀ c ∈ r, c.isDigit = false := by
      intro c hc
      have : c ∈ s.data.dropWhile fun c => c.isWhitespace := by
        rw [heq]; exact List.mem_cons_of_mem _ hc
      exact hsub c this
    rw [takeWhile_isDigit_nil r hr]
    simp [digitsToNat, LONG_MIN, LONG_MAX]
  next r heq =>
    have hr : ∀ c ∈ r, c.isDigit = false := by
      intro c hc
      have : c ∈ s.data.dropWhile fun c => c.isWhitespace := by
        rw [heq]; exact List.mem_cons_of_mem _ hc
      exact hsub c this
    rw [takeWhile_isDigit_nil r hr]
    simp [digitsToNat, LONG_MIN, LONG_MAX]
  next h1 h2 =>
    rw [takeWhile_isDigit_nil _ hsub]
    simp [digitsToNat, LONG_MIN, LONG_MAX]

/-- C9 counterexample: with the invalid width value abc the parser stores 0
(the numeric-parse failure result of wcstol), not the default 1280 the claim
promises as the fallback. -/
theorem parse_invalid_value_counterexample :
    (ParseCommandLineArguments ["prog", "-w", "abc"]).clientWidth = 0 ∧
    (0 : Nat) ≠ 1280 := by
  decide

/-- C9 as amended: a -w or -h flag whose value fails numeric parsing sets the
corresponding client dimension to 0 (the wcstol failure result) rather than
leaving the default; the defaults 1280 and 720 persist only when the flags are
absent; and when no -warp or --warp argument occurs the warp flag stays false
and the hardware adapter path of GetAdapter is taken. -/
theorem parse_invalid_value_amended :
    (∀ s : String, (∀ c ∈ s.data, c.isDigit = false) → wcstol10 s = 0) ∧
    (∀ s : String, s ≠ "-h" → s ≠ "--height" → s ≠ "-warp" → s ≠ "--warp" →
       (ParseCommandLineArguments ["prog", "-w", s]).clientWidth
         = longToUInt32 (wcstol10 s)) ∧
    (∀ s : String, s ≠ "-warp" → s ≠ "--warp" →
       (ParseCommandLineArguments ["prog", "-h", s]).clientHeight
         = longToUInt32 (wcstol10 s)) ∧
    ParseCommandLineArguments ["prog"] = defaultConfig ∧
    (∀ args : List String, (∀ a ∈ args, a ≠ "-warp" ∧ a ≠ "--warp") →
       (ParseCommandLineArguments args).useWarp = false ∧
       GetAdapter (ParseCommandLineArguments args).useWarp = AdapterKind.hardware) := by
  refine ⟨wcstol10_no_digits, parse_width_value, parse_height_value, by decide, ?_⟩
  intro args h
  have hw : (ParseCommandLineArguments args).useWarp = false := by
    rw [ParseCommandLineArguments, parseLoop_useWarp args h]
    rfl
  exact ⟨hw, by rw [hw]; rfl⟩

/-- Witness for C9 as amended: concrete command line with the invalid width
value abc — the parse yields width 0 via the wcstol failure path, and with no
warp flag the hardware adapter is selected. -/
theorem parse_invalid_value_amended_witness :
    ((∀ c ∈ ("abc" : String).data, c.isDigit = false) ∧ wcstol10 "abc" = 0) ∧
    (("abc" : String) ≠ "-h" ∧ ("abc" : String) ≠ "--height" ∧
     ("abc" : String) ≠ "-warp" ∧ ("abc" : String) ≠ "--warp" ∧
     (ParseCommandLineArguments ["prog", "-w", "abc"]).clientWidth
       = longToUInt32 (wcstol10 "abc")) ∧
    ((∀ a ∈ ["prog", "-w", "abc"], a ≠ "-warp" ∧ a ≠ "--warp") ∧
     (ParseCommandLineArguments ["prog", "-w", "abc"]).useWarp = false ∧
     GetAdapter (ParseCommandLineArguments ["prog", "-w", "abc"]).useWarp
       = AdapterKind.hardware) :=
  ⟨⟨by decide, parse_invalid_value_amended.1 "abc" (by decide)⟩,
   ⟨by decide, by decide, by decide, by decide,
    parse_invalid_value_amended.2.1 "abc" (by decide) (by decide) (by decide) (by decide)⟩,
   ⟨by decide,
    parse_invalid_value_amended.2.2.2.2 ["prog", "-w", "abc"] (by decide)⟩⟩

end DX12
